import Mathlib

/-!
Verification development for the Pipedrive/Salesforce loan-sync service.

The Python sources under `workflows/salesforce_sync/` are shallowly embedded:
pure field/stage computations become Lean functions, and every remote call
(Pipedrive REST endpoints, Salesforce queries) is abstracted into a `World`
record of responses, so each sync operation is a function from a world, the
configuration and the inbound record to a result plus an explicit list of the
writes it issued.  Truthiness tests of the source (`if x:` on strings,
integers, optionals) are modelled by explicit emptiness/zero tests.
-/

namespace PipedriveSync

/-! ## Identity Store (`deal_mapping.py`)

The on-disk file `deal_mappings.json` is a JSON object whose keys are
Salesforce Loan IDs (strings) and whose values are Pipedrive deal ids
(integers).  `load_mappings` coerces every key with `str` and every value with
`int`, so the in-memory image is modelled as an ordered association list with
string keys and unique-key insertion semantics of a Python dict. -/

/-- A value used as a mapping key before the `str(...)` coercion that
`get_deal_id_for_loan` / `store_deal_mapping` apply: either already a string
or an integer id. -/
inductive MapKey
  | str (s : String)
  | num (n : Nat)
deriving DecidableEq, Repr

/-- Python `str(...)` on a mapping key. -/
def MapKey.toStr : MapKey → String
  | .str s => s
  | .num n => toString n

/-- In-memory image of `deal_mappings.json` after `load_mappings`:
Salesforce Loan ID (string) to Pipedrive deal id. -/
def Mappings := List (String × Nat)
deriving DecidableEq, Repr

/-- Python dict lookup `mappings.get(k)`. -/
def dictGet : Mappings → String → Option Nat
  | [], _ => none
  | (k1, v1) :: rest, k => if k1 = k then some v1 else dictGet rest k

/-- Python dict assignment `mappings[k] = v`: replace in place if the key is
present, otherwise append. -/
def dictSet : Mappings → String → Nat → Mappings
  | [], k, v => [(k, v)]
  | (k1, v1) :: rest, k, v =>
      if k1 = k then (k, v) :: rest else (k1, v1) :: dictSet rest k v

/-- `get_deal_id_for_loan`: load the mapping file and return
`mappings.get(str(salesforce_loan_id))`.  (The `if deal_id:` test in the
source only selects the log message; the value is returned unchanged.) -/
def get_deal_id_for_loan (file : Mappings) (salesforce_loan_id : MapKey) : Option Nat :=
  dictGet file salesforce_loan_id.toStr

/-- `store_deal_mapping`: load, set `mappings[str(loan_id)] = int(deal_id)`,
save.  The file state is threaded explicitly. -/
def store_deal_mapping (file : Mappings) (salesforce_loan_id : MapKey) (deal_id : Nat) :
    Mappings :=
  dictSet file salesforce_loan_id.toStr deal_id

/-- A sequence of `store_deal_mapping` calls starting from an empty file. -/
def store_all (entries : List (MapKey × Nat)) : Mappings :=
  entries.foldl (fun m e => store_deal_mapping m e.1 e.2) []

/-! ## Configuration (`config.py`)

Only the truthiness of the Pipedrive custom-field keys and the numeric ids
matter to the sync logic; a key is modelled by the Boolean "is configured",
an option/stage id by a `Nat` where `0` stands for an unset (falsy) value. -/

structure Config where
  LOAN_AMOUNT_KEY : Bool := true
  DEAL_LABEL_FIELD_KEY : Bool := true
  PIPEDRIVE_SALESFORCE_LOAN_ID_KEY : Bool := true
  LOAN_NUMBER_KEY : Bool := true
  COBORROWER_NAME_KEY : Bool := true
  PIPEDRIVE_SALESFORCE_CONTACT_ID_KEY : Bool := true
  CONTACT_TYPE_KEY : Bool := true
  CONTACT_TYPE_CLIENT_ID : Nat := 0
  CONTACT_TYPE_BUSINESS_ID : Nat := 0
  APPLICATION_IN_STAGE_ID : Nat := 0
  PREAPPROVED_STAGE_ID : Nat := 0
  GETTING_THINGS_ROLLING_STAGE_ID : Nat := 0
  IN_PROCESS_STAGE_ID : Nat := 0
  CLEAR_TO_CLOSE_STAGE_ID : Nat := 0
  LABEL_APPLICATION_ID : Nat := 0
  LABEL_PRE_APPROVED_ID : Nat := 0
  LABEL_GETTING_THINGS_ROLLING_ID : Nat := 0
  LABEL_IN_PROCESS_ID : Nat := 0
  LABEL_SUBMITTED_ID : Nat := 0
  LABEL_COND_APPROVAL_ID : Nat := 0
  LABEL_APPROVED_ID : Nat := 0
  LABEL_CLEAR_TO_CLOSE_ID : Nat := 0
  LABEL_DOCS_OUT_ID : Nat := 0
  LABEL_CLOSED_ID : Nat := 0
  LABEL_SUSPENDED_ID : Nat := 0
  LABEL_CANCELLED_ID : Nat := 0
deriving DecidableEq, Repr

/-! ## Salesforce loan records (`sync_deal.py`)

Only the loan fields consulted by the claims are modelled; `loan_data.get(k)`
of an absent field is `none`. -/

structure Loan where
  /-- `"Id"` -/
  id : Option String := none
  /-- `"MtgPlanner_CRM__Status__c"` (read with default `""`). -/
  status : String := ""
  /-- `"MtgPlanner_CRM__Loan_1st_TD__c"` -/
  loanNumber : Option String := none
  /-- `"MtgPlanner_CRM__Loan_Amount_1st_TD__c"` (total loan amount, monetary). -/
  totalAmount : Option Int := none
  /-- Nested `"MtgPlanner_CRM__Borrower_Name__r"."Name"` (`none` when the
  relationship is absent or not a dict). -/
  borrowerName : Option String := none
  /-- `"Name"` -/
  nameField : Option String := none
  /-- `"MtgPlanner_CRM__Est_Closing_Date__c"` -/
  estClosingDate : Option String := none
deriving DecidableEq, Repr

/-- `format_deal_title`: `"{BorrowerFullName} - Loan # {LoanNumber}"` with the
degraded fallbacks of the source. -/
def format_deal_title (loan : Loan) : String :=
  let borrower_name := loan.borrowerName.getD ""
  let loan_number := loan.loanNumber.getD ""
  if borrower_name ≠ "" ∧ loan_number ≠ "" then
    borrower_name ++ " - Loan # " ++ loan_number
  else if borrower_name ≠ "" then borrower_name ++ " - Loan"
  else if loan_number ≠ "" then "Loan # " ++ loan_number
  else loan.nameField.getD "New Loan"

/-- The `stage_mapping` dict of `map_salesforce_stage_to_pipedrive`, in
insertion order. -/
def stage_mapping (cfg : Config) : List (String × Nat) :=
  [("Application", cfg.APPLICATION_IN_STAGE_ID),
   ("Pre-Approved", cfg.PREAPPROVED_STAGE_ID),
   ("GTR", cfg.GETTING_THINGS_ROLLING_STAGE_ID),
   ("Getting Things Rolling", cfg.GETTING_THINGS_ROLLING_STAGE_ID),
   ("In Process", cfg.IN_PROCESS_STAGE_ID),
   ("Loan In Process", cfg.IN_PROCESS_STAGE_ID),
   ("Submitted", cfg.IN_PROCESS_STAGE_ID),
   ("Cond. Approval", cfg.IN_PROCESS_STAGE_ID),
   ("Approved", cfg.IN_PROCESS_STAGE_ID),
   ("Suspended", cfg.IN_PROCESS_STAGE_ID),
   ("Clear to Close", cfg.CLEAR_TO_CLOSE_STAGE_ID),
   ("Clear To Close", cfg.CLEAR_TO_CLOSE_STAGE_ID),
   ("Docs Out", cfg.CLEAR_TO_CLOSE_STAGE_ID),
   ("Closed", cfg.CLEAR_TO_CLOSE_STAGE_ID)]

/-- The `label_mapping` dict of `map_salesforce_status_to_label`, in
insertion order. -/
def label_mapping (cfg : Config) : List (String × Nat) :=
  [("Application", cfg.LABEL_APPLICATION_ID),
   ("Pre-Approved", cfg.LABEL_PRE_APPROVED_ID),
   ("GTR", cfg.LABEL_GETTING_THINGS_ROLLING_ID),
   ("Getting Things Rolling", cfg.LABEL_GETTING_THINGS_ROLLING_ID),
   ("In Process", cfg.LABEL_IN_PROCESS_ID),
   ("Loan In Process", cfg.LABEL_IN_PROCESS_ID),
   ("Submitted", cfg.LABEL_SUBMITTED_ID),
   ("Cond. Approval", cfg.LABEL_COND_APPROVAL_ID),
   ("Approved", cfg.LABEL_APPROVED_ID),
   ("Clear to Close", cfg.LABEL_CLEAR_TO_CLOSE_ID),
   ("Clear To Close", cfg.LABEL_CLEAR_TO_CLOSE_ID),
   ("Docs Out", cfg.LABEL_DOCS_OUT_ID),
   ("Closed", cfg.LABEL_CLOSED_ID),
   ("Suspended", cfg.LABEL_SUSPENDED_ID),
   ("Cancelled", cfg.LABEL_CANCELLED_ID)]

/-- Case-insensitive fallback lookup: the first entry whose lower-cased key
equals the lower-cased status (iteration order of the dict). -/
def lookup_ci (l : List (String × Nat)) (s : String) : Option Nat :=
  match l.find? (fun p => p.1.toLower == s.toLower) with
  | some p => some p.2
  | none => none

/-- `map_salesforce_stage_to_pipedrive`: exact dict hit first, then the
case-insensitive scan, else `None` (a mapped-but-unconfigured stage id is the
falsy 0). -/
def map_salesforce_stage_to_pipedrive (cfg : Config) (salesforce_status : String) : Option Nat :=
  match (stage_mapping cfg).lookup salesforce_status with
  | some v => some v
  | none => lookup_ci (stage_mapping cfg) salesforce_status

/-- `map_salesforce_status_to_label`: exact dict hit first, then the
case-insensitive scan, else `None`. -/
def map_salesforce_status_to_label (cfg : Config) (salesforce_status : String) : Option Nat :=
  match (label_mapping cfg).lookup salesforce_status with
  | some v => some v
  | none => lookup_ci (label_mapping cfg) salesforce_status

/-! ## Deal payloads

The request body of a deal POST/PUT.  `map_all_deal_fields` writes only
further custom-field keys (base loan amount, property, date and income
fields) that are distinct from every slot below and are consulted by no
claim, so its contribution is not represented.  In particular it never
writes `"value"` or the `LOAN_AMOUNT_KEY` field. -/

structure DealPayload where
  /-- `"title"` -/
  title : String := ""
  /-- `"person_id"` -/
  personId : Option Nat := none
  /-- `"value"` (monetary value of the deal). -/
  value : Option Int := none
  /-- The `LOAN_AMOUNT_KEY` custom field ("loan amount"). -/
  loanAmount : Option Int := none
  /-- `"stage_id"` -/
  stageId : Option Nat := none
  /-- The `DEAL_LABEL_FIELD_KEY` custom field. -/
  labelId : Option Nat := none
  /-- `"expected_close_date"` -/
  expectedCloseDate : Option String := none
  /-- `"status"` (only ever set to `"won"`). -/
  statusField : Option String := none
  /-- The `PIPEDRIVE_SALESFORCE_LOAN_ID_KEY` custom field. -/
  sfLoanId : Option String := none
deriving DecidableEq, Repr

/-- The body `create_deal` sends to `POST /deals`.  Note: `create_deal` sets
`"value"` but, unlike `update_deal`, never sets the `LOAN_AMOUNT_KEY` custom
field. -/
def create_deal_payload (cfg : Config) (loan : Loan) (person_id : Nat)
    (salesforce_loan_id : String) : DealPayload :=
  let title := format_deal_title loan
  let total_amount := loan.totalAmount.getD 0
  let status := loan.status
  let stage_id := (map_salesforce_stage_to_pipedrive cfg status).getD 0
  let label_id := (map_salesforce_status_to_label cfg status).getD 0
  { title := title
    personId := some person_id
    value := some total_amount
    loanAmount := none
    stageId := if stage_id ≠ 0 then some stage_id else none
    labelId := if label_id ≠ 0 ∧ cfg.DEAL_LABEL_FIELD_KEY then some label_id else none
    expectedCloseDate :=
      match loan.estClosingDate with
      | some s => if s ≠ "" then some ((s.splitOn "T").headD s) else none
      | none => none
    statusField := if status = "Closed" then some "won" else none
    sfLoanId :=
      if cfg.PIPEDRIVE_SALESFORCE_LOAN_ID_KEY ∧ salesforce_loan_id ≠ "" then
        some salesforce_loan_id
      else none }

/-- The body `update_deal` sends to `PUT /deals/{id}`: when the source record
carries a total amount (an `is not None` test, not a truthiness test) both
`"value"` and the `LOAN_AMOUNT_KEY` custom field are set to it. -/
def update_deal_payload (cfg : Config) (loan : Loan) (person_id : Option Nat)
    (salesforce_loan_id : String) : DealPayload :=
  let title := format_deal_title loan
  let status := loan.status
  let stage_id := (map_salesforce_stage_to_pipedrive cfg status).getD 0
  let label_id := (map_salesforce_status_to_label cfg status).getD 0
  { title := title
    personId :=
      match person_id with
      | some p => if p ≠ 0 then some p else none
      | none => none
    value := loan.totalAmount
    loanAmount :=
      match loan.totalAmount with
      | some t => if cfg.LOAN_AMOUNT_KEY then some t else none
      | none => none
    stageId := if stage_id ≠ 0 then some stage_id else none
    labelId := if label_id ≠ 0 ∧ cfg.DEAL_LABEL_FIELD_KEY then some label_id else none
    expectedCloseDate :=
      match loan.estClosingDate with
      | some s => if s ≠ "" then some ((s.splitOn "T").headD s) else none
      | none => none
    statusField := if status = "Closed" then some "won" else none
    sfLoanId :=
      if cfg.PIPEDRIVE_SALESFORCE_LOAN_ID_KEY ∧ salesforce_loan_id ≠ "" then
        some salesforce_loan_id
      else none }

/-! ## The remote world

Every remote interaction of one `sync_deal_from_loan` call, abstracted into a
record of responses. -/

/-- Outcome of `GET /deals/{id}` in Step 0. -/
inductive FetchResult
  /-- HTTP 200 with `success: true`; carries the active flag and status of
  the fetched deal. -/
  | ok (active : Bool) (status : String)
  /-- HTTP 200 but `success: false` (the source falls through to Step 1). -/
  | apiFail
  /-- HTTP 404 (deal vanished or archived beyond retrieval). -/
  | notFound
  /-- Any other HTTP error or exception (the source logs and falls through). -/
  | httpErr
deriving DecidableEq, Repr

/-- One result of the inline `deals/search` by loan number in Step 2, after
the item/`item` unwrapping of the source. -/
structure SearchItem where
  id : Nat := 0
  personId : Option Nat := none
  loanNumberField : Option String := none
deriving DecidableEq, Repr

/-- Outcome of the v2 lead-conversion endpoint in `convert_lead_to_deal`. -/
inductive ConvertApiResult
  /-- `success: true`, with the id of the converted deal from the body. -/
  | ok (dealId : Option Nat)
  /-- `success: false` or any HTTP error: the source uses the create
  fallback. -/
  | fail
deriving DecidableEq, Repr

structure World where
  /-- Result of `sync_person_from_contact` on this loan. -/
  personSync : Option Nat := none
  /-- Result of `sync_coborrower_from_loan` on this loan. -/
  coborrowerSync : Option Nat := none
  /-- `GET /deals/{id}` used by Step 0 on the mapped deal. -/
  fetchDeal : Nat → FetchResult := fun _ => FetchResult.httpErr
  /-- Result of `find_deal_by_salesforce_id` (Step 1). -/
  searchBySfId : Option Nat := none
  /-- `is_deal_archived_or_lost`. -/
  archivedOrLost : Nat → Bool := fun _ => false
  /-- The inline Step 2 search raised an exception. -/
  loanSearchFails : Bool := false
  /-- Items of the inline Step 2 `deals/search` response. -/
  loanSearchItems : List SearchItem := []
  /-- Result of the Step 2 fallback `find_deal_by_loan_number`. -/
  findByLoanNumber : Option Nat := none
  /-- Result of `find_active_lead_for_person` (Step 3). -/
  activeLead : Option Nat := none
  /-- The v2 conversion endpoint outcome. -/
  convertApi : ConvertApiResult := ConvertApiResult.fail
  /-- `POST /deals`: the new deal id when the response has `success: true`. -/
  createDeal : Option Nat := none
  /-- Whether `PUT /deals/{id}` reports success. -/
  updateOk : Nat → Bool := fun _ => true

/-- The observable writes of one `sync_deal_from_loan` call. -/
structure Effects where
  /-- Number of `sync_person_from_contact` invocations (each may write). -/
  personSyncCalls : Nat := 0
  /-- Number of `sync_coborrower_from_loan` invocations. -/
  cobSyncCalls : Nat := 0
  /-- Number of `POST /deals` attempts. -/
  createPosts : Nat := 0
  /-- Ids of successfully created deals. -/
  created : List Nat := []
  /-- `PUT /deals/{id}` bodies issued by `update_deal`. -/
  dealPuts : List (Nat × DealPayload) := []
  /-- Co-borrower association PUTs: (deal id, co-borrower person id). -/
  cobPuts : List (Nat × Nat) := []
deriving DecidableEq, Repr

/-- Concatenation of effect logs in program order. -/
def Effects.merge (a b : Effects) : Effects :=
  { personSyncCalls := a.personSyncCalls + b.personSyncCalls
    cobSyncCalls := a.cobSyncCalls + b.cobSyncCalls
    createPosts := a.createPosts + b.createPosts
    created := a.created ++ b.created
    dealPuts := a.dealPuts ++ b.dealPuts
    cobPuts := a.cobPuts ++ b.cobPuts }

/-- Result of one `sync_deal_from_loan` call: returned value, mapping-file
state after the call, and the writes issued. -/
structure SyncOut where
  ret : Option Nat
  ms : Mappings
  eff : Effects
deriving DecidableEq, Repr

/-- `update_deal`: on a Cancelled source status it returns `True` without
issuing any request (the payload the source assembled up to that point is
discarded unsent); otherwise it PUTs the full payload and reports the
response success.  Commission recalculation failures are swallowed and do
not affect the result. -/
def update_deal (w : World) (cfg : Config) (deal_id : Nat) (loan : Loan)
    (person_id : Option Nat) (salesforce_loan_id : String) :
    Bool × Option (Nat × DealPayload) :=
  if loan.status = "Cancelled" then (true, none)
  else (w.updateOk deal_id, some (deal_id, update_deal_payload cfg loan person_id salesforce_loan_id))

/-- The singleton put list of an `update_deal` call (for the effect log). -/
def putOf (r : Bool × Option (Nat × DealPayload)) : List (Nat × DealPayload) :=
  match r.2 with
  | some p => [p]
  | none => []

/-- Result of a `create_deal` call. -/
structure CreateOut where
  ret : Option Nat
  ms : Mappings
  created : List Nat
  /-- The POST body that was sent. -/
  post : DealPayload
deriving DecidableEq, Repr

/-- `create_deal`: POST the mapped payload; on success store the
loan-id-to-deal-id mapping (when the loan id is truthy) and return the new
id, else return `None`. -/
def create_deal (w : World) (cfg : Config) (loan : Loan) (person_id : Nat)
    (salesforce_loan_id : String) (ms : Mappings) : CreateOut :=
  let post := create_deal_payload cfg loan person_id salesforce_loan_id
  match w.createDeal with
  | some did =>
      { ret := some did
        ms := if salesforce_loan_id ≠ "" then
                store_deal_mapping ms (MapKey.str salesforce_loan_id) did
              else ms
        created := [did]
        post := post }
  | none => { ret := none, ms := ms, created := [], post := post }

/-- Result of a `convert_lead_to_deal` call: `posts` counts the create POST
attempts of the fallback path. -/
structure ConvertOut where
  ret : Option Nat
  ms : Mappings
  created : List Nat
  posts : Nat
deriving DecidableEq, Repr

/-- `convert_lead_to_deal`: the v2 endpoint on success returns the converted
deal id directly; on failure the fallback creates a deal manually from the
loan data (passing `loan_data.get("Id")` as the loan id). -/
def convert_lead_to_deal (w : World) (cfg : Config) (lead_id : Nat) (loan : Loan)
    (person_id : Nat) (ms : Mappings) : ConvertOut :=
  match w.convertApi with
  | ConvertApiResult.ok did => { ret := did, ms := ms, created := [], posts := 0 }
  | ConvertApiResult.fail =>
      let c := create_deal w cfg loan person_id (loan.id.getD "") ms
      { ret := c.ret, ms := c.ms, created := c.created, posts := 1 }

/-- The co-borrower association writes a branch issues for a given deal:
one PUT when a co-borrower person was resolved (truthy) and the association
key is configured. -/
def cob_puts (w : World) (cfg : Config) (deal_id : Nat) : List (Nat × Nat) :=
  match w.coborrowerSync with
  | some c => if c ≠ 0 ∧ cfg.COBORROWER_NAME_KEY then [(deal_id, c)] else []
  | none => []

/-- The first item of the inline Step 2 search that passes every filter of
the source loop: truthy deal id, truthy person id equal to the resolved
person, configured `LOAN_NUMBER_KEY`, truthy loan-number field whose string
form equals the loan number. -/
def step2_match (cfg : Config) (person_id : Nat) (loan_number : String) :
    List SearchItem → Option Nat
  | [] => none
  | it :: rest =>
      if it.id = 0 then step2_match cfg person_id loan_number rest
      else
        match it.personId with
        | none => step2_match cfg person_id loan_number rest
        | some p =>
            if p = 0 ∨ p ≠ person_id then step2_match cfg person_id loan_number rest
            else if cfg.LOAN_NUMBER_KEY then
              match it.loanNumberField with
              | some f =>
                  if f ≠ "" ∧ f = loan_number then some it.id
                  else step2_match cfg person_id loan_number rest
              | none => step2_match cfg person_id loan_number rest
            else step2_match cfg person_id loan_number rest

/-- Step 4: create a new deal; add the co-borrower association when the
create succeeded (truthy id) and a co-borrower was resolved; return the
create result (which may be `None`). -/
def step4_create (w : World) (cfg : Config) (loan : Loan) (salesforce_loan_id : String)
    (person_id : Nat) (ms : Mappings) (acc : Effects) : SyncOut :=
  let c := create_deal w cfg loan person_id salesforce_loan_id ms
  let cob :=
    match c.ret with
    | some did => if did ≠ 0 then cob_puts w cfg did else []
    | none => []
  { ret := c.ret, ms := c.ms
    eff := acc.merge { createPosts := 1, created := c.created, cobPuts := cob } }

/-- Step 3: convert an active lead when one exists; on a truthy converted id,
immediately update the new deal with the full field set and associate the
co-borrower; on conversion failure fall through to Step 4. -/
def step3_lead (w : World) (cfg : Config) (loan : Loan) (salesforce_loan_id : String)
    (person_id : Nat) (ms : Mappings) (acc : Effects) : SyncOut :=
  match w.activeLead with
  | some lead =>
      if lead = 0 then step4_create w cfg loan salesforce_loan_id person_id ms acc
      else
        let conv := convert_lead_to_deal w cfg lead loan person_id ms
        let acc1 := acc.merge { createPosts := conv.posts, created := conv.created }
        match conv.ret with
        | some did =>
            if did = 0 then step4_create w cfg loan salesforce_loan_id person_id conv.ms acc1
            else
              { ret := some did, ms := conv.ms
                eff := acc1.merge
                  { dealPuts := putOf (update_deal w cfg did loan (some person_id) salesforce_loan_id)
                    cobPuts := cob_puts w cfg did } }
        | none => step4_create w cfg loan salesforce_loan_id person_id conv.ms acc1
  | none => step4_create w cfg loan salesforce_loan_id person_id ms acc

/-- Step 2: search by loan number (inline search over the person-matched
items first, then the `find_deal_by_loan_number` fallback); on a match store
the mapping, then skip archived/lost matches, else update and return.  The
inline path issues no co-borrower association PUT. -/
def step2_loan_number (w : World) (cfg : Config) (loan : Loan) (salesforce_loan_id : String)
    (person_id : Nat) (ms : Mappings) (acc : Effects) : SyncOut :=
  let loan_number := loan.loanNumber.getD ""
  if loan_number = "" then step3_lead w cfg loan salesforce_loan_id person_id ms acc
  else
    let inline :=
      if w.loanSearchFails then none
      else step2_match cfg person_id loan_number w.loanSearchItems
    match inline with
    | some did =>
        let ms1 := store_deal_mapping ms (MapKey.str salesforce_loan_id) did
        if w.archivedOrLost did then { ret := none, ms := ms1, eff := acc }
        else
          { ret := some did, ms := ms1
            eff := acc.merge
              { dealPuts := putOf (update_deal w cfg did loan (some person_id) salesforce_loan_id) } }
    | none =>
        match w.findByLoanNumber with
        | some f =>
            if f = 0 then step3_lead w cfg loan salesforce_loan_id person_id ms acc
            else
              let ms1 := store_deal_mapping ms (MapKey.str salesforce_loan_id) f
              if w.archivedOrLost f then { ret := none, ms := ms1, eff := acc }
              else
                { ret := some f, ms := ms1
                  eff := acc.merge
                    { dealPuts := putOf (update_deal w cfg f loan (some person_id) salesforce_loan_id)
                      cobPuts := cob_puts w cfg f } }
        | none => step3_lead w cfg loan salesforce_loan_id person_id ms acc

/-- Step 1: search all (including archived) deals by the Salesforce loan id;
on a truthy hit store the mapping (self-healing), skip it when archived or
lost, else update, associate the co-borrower and return. -/
def step1_sf_search (w : World) (cfg : Config) (loan : Loan) (salesforce_loan_id : String)
    (person_id : Nat) (ms : Mappings) (acc : Effects) : SyncOut :=
  match w.searchBySfId with
  | some e =>
      if e = 0 then step2_loan_number w cfg loan salesforce_loan_id person_id ms acc
      else
        let ms1 := store_deal_mapping ms (MapKey.str salesforce_loan_id) e
        if w.archivedOrLost e then { ret := none, ms := ms1, eff := acc }
        else
          { ret := some e, ms := ms1
            eff := acc.merge
              { dealPuts := putOf (update_deal w cfg e loan (some person_id) salesforce_loan_id)
                cobPuts := cob_puts w cfg e } }
  | none => step2_loan_number w cfg loan salesforce_loan_id person_id ms acc

/-- Step 0: consult the stored mapping.  On a truthy mapped id fetch the
deal: archived (`active == False`) or lost means skip (`None`), a 404 means
skip (`None`), success means update and return the mapped id; an
indeterminate failure (`success: false`, other HTTP error, exception) falls
through to Step 1. -/
def step0_mapping (w : World) (cfg : Config) (loan : Loan) (salesforce_loan_id : String)
    (person_id : Nat) (ms : Mappings) (acc : Effects) : SyncOut :=
  match get_deal_id_for_loan ms (MapKey.str salesforce_loan_id) with
  | some d =>
      if d = 0 then step1_sf_search w cfg loan salesforce_loan_id person_id ms acc
      else
        match w.fetchDeal d with
        | FetchResult.ok active st =>
            if active = false ∨ st = "lost" then { ret := none, ms := ms, eff := acc }
            else
              { ret := some d, ms := ms
                eff := acc.merge
                  { dealPuts := putOf (update_deal w cfg d loan (some person_id) salesforce_loan_id)
                    cobPuts := cob_puts w cfg d } }
        | FetchResult.notFound => { ret := none, ms := ms, eff := acc }
        | FetchResult.apiFail => step1_sf_search w cfg loan salesforce_loan_id person_id ms acc
        | FetchResult.httpErr => step1_sf_search w cfg loan salesforce_loan_id person_id ms acc
  | none => step1_sf_search w cfg loan salesforce_loan_id person_id ms acc

/-- `sync_deal_from_loan`: guards (missing id, Cancelled status, person sync
failure), then the Step 0 to Step 4 resolution cascade. -/
def sync_deal_from_loan (w : World) (cfg : Config) (loan : Loan) (ms0 : Mappings) : SyncOut :=
  match loan.id with
  | none => { ret := none, ms := ms0, eff := {} }
  | some sfId =>
      if sfId = "" then { ret := none, ms := ms0, eff := {} }
      else if loan.status = "Cancelled" then { ret := none, ms := ms0, eff := {} }
      else
        match w.personSync with
        | none => { ret := none, ms := ms0, eff := { personSyncCalls := 1 } }
        | some pid =>
            if pid = 0 then { ret := none, ms := ms0, eff := { personSyncCalls := 1 } }
            else
              step0_mapping w cfg loan sfId pid ms0 { personSyncCalls := 1, cobSyncCalls := 1 }

/-- Repeated synchronisation of the same loan, threading the mapping file;
returns the final file state and every deal id created across the calls. -/
def sync_iter (w : World) (cfg : Config) (loan : Loan) : Nat → Mappings → Mappings × List Nat
  | 0, ms => (ms, [])
  | Nat.succ k, ms =>
      let o := sync_deal_from_loan w cfg loan ms
      let r := sync_iter w cfg loan k o.ms
      (r.1, o.eff.created ++ r.2)

/-! ## Person sync (`sync_person.py`)

The person resolver is modelled from the point where
`sync_person_from_contact` has extracted the Salesforce Contact ID and the
Name/Email/Phone fields (the direct-record and nested-from-loan extraction
branches both produce exactly this data); an extraction failure corresponds
to an empty `sfId`. -/

/-- Python truthiness filter on an optional id: `None` and `0` are falsy. -/
def optTruthy (o : Option Nat) : Option Nat :=
  match o with
  | some n => if n = 0 then none else some n
  | none => none

structure Contact where
  /-- The extracted Salesforce Contact ID. -/
  sfId : String := ""
  name : Option String := none
  email : Option String := none
  phone : Option String := none
deriving DecidableEq, Repr

/-- Body of a `POST /persons` or `PUT /persons/{id}` request (only the
fields the claims consult; group and contact-type writes go through separate
requests tracked in `PersonEffects`). -/
structure PersonPayload where
  name : Option String := none
  email : Option String := none
  phone : Option String := none
  /-- The `PIPEDRIVE_SALESFORCE_CONTACT_ID_KEY` custom field. -/
  sfContactId : Option String := none
deriving DecidableEq, Repr

/-- Remote responses seen by one `sync_person_from_contact` call. -/
structure PersonWorld where
  /-- `find_person_by_email` result. -/
  findByEmail : Option Nat := none
  /-- `find_person_by_salesforce_id` result. -/
  findBySfId : Option Nat := none
  /-- Whether `PUT /persons/{id}` reports success. -/
  updateOk : Bool := true
  /-- `POST /persons`: the new person id on success. -/
  createPerson : Option Nat := none
deriving DecidableEq, Repr

/-- Writes issued by one `sync_person_from_contact` call. -/
structure PersonEffects where
  /-- `PUT /persons/{id}` bodies from `update_person`. -/
  personPuts : List (Nat × PersonPayload) := []
  /-- Ids of persons created by `create_person`. -/
  personCreates : List Nat := []
  /-- Number of `POST /persons` attempts. -/
  createPosts : Nat := 0
  /-- Persons whose group field was rewritten by `update_person_groups`. -/
  groupPuts : List Nat := []
  /-- Persons passed to `update_person_contact_type`. -/
  contactTypeChecks : List Nat := []
deriving DecidableEq, Repr

structure PersonOut where
  ret : Option Nat
  eff : PersonEffects
deriving DecidableEq, Repr

/-- The `email` variable of `sync_person_from_contact`: the contact email
when truthy, else the name-as-identity fallback (degraded mode). -/
def derived_email (contact : Contact) : String :=
  match contact.email with
  | some e => if e ≠ "" then e else contact.name.getD ""
  | none => contact.name.getD ""

/-- The body `update_person` sends: name/email/phone only on the initial
linkage (`is_initial`), the Salesforce Contact ID linkage field always (when
configured and present). -/
def update_person_payload (cfg : Config) (contact : Contact) (email : String)
    (is_initial : Bool) : PersonPayload :=
  { name :=
      if is_initial then
        match contact.name with
        | some n => if n ≠ "" then some n else none
        | none => none
      else none
    email := if is_initial ∧ email ≠ "" then some email else none
    phone :=
      if is_initial then
        match contact.phone with
        | some p => if p ≠ "" then some p else none
        | none => none
      else none
    sfContactId :=
      if cfg.PIPEDRIVE_SALESFORCE_CONTACT_ID_KEY ∧ contact.sfId ≠ "" then
        some contact.sfId
      else none }

/-- The body `create_person` sends: name falls back to the email (or
"Unknown"); email/phone when truthy; the linkage field when configured. -/
def create_person_payload (cfg : Config) (contact : Contact) (email : String) :
    PersonPayload :=
  let name0 := contact.name.getD ""
  let name := if name0 ≠ "" then name0 else if email ≠ "" then email else "Unknown"
  { name := some name
    email := if email ≠ "" then some email else none
    phone :=
      match contact.phone with
      | some p => if p ≠ "" then some p else none
      | none => none
    sfContactId :=
      if cfg.PIPEDRIVE_SALESFORCE_CONTACT_ID_KEY ∧ contact.sfId ≠ "" then
        some contact.sfId
      else none }

/-- `sync_person_from_contact` (upsert by email): found by email updates with
`is_initial = not existing_by_sf_id` and rewrites the groups; found only by
Salesforce id updates with `is_initial = True` (email drift); neither found
creates.  `update_person` runs `update_person_contact_type` only after a
successful PUT; `create_person` rewrites groups and the contact type after a
successful POST. -/
def sync_person_from_contact (w : PersonWorld) (cfg : Config) (contact : Contact) :
    PersonOut :=
  if contact.sfId = "" then { ret := none, eff := {} }
  else
    let email := derived_email contact
    match optTruthy w.findByEmail with
    | some p =>
        let is_initial := (optTruthy w.findBySfId).isNone
        { ret := some p
          eff := { personPuts := [(p, update_person_payload cfg contact email is_initial)]
                   groupPuts := [p]
                   contactTypeChecks := if w.updateOk then [p] else [] } }
    | none =>
        match optTruthy w.findBySfId with
        | some p =>
            { ret := some p
              eff := { personPuts := [(p, update_person_payload cfg contact email true)]
                       contactTypeChecks := if w.updateOk then [p] else [] } }
        | none =>
            match w.createPerson with
            | some np =>
                { ret := some np
                  eff := { personCreates := [np], createPosts := 1
                           groupPuts := [np], contactTypeChecks := [np] } }
            | none => { ret := none, eff := { createPosts := 1 } }

/-! ## Contact type protection (`update_person_contact_type`) -/

/-- A Python value as returned for a custom field by the Pipedrive API. -/
inductive PyVal
  | vnone
  | vstr (s : String)
  | vnat (n : Nat)
  | vdict (value : PyVal)
  | vlist (xs : List PyVal)
deriving Repr

/-- Python truthiness. -/
def PyVal.truthy : PyVal → Bool
  | PyVal.vnone => false
  | PyVal.vstr s => s != ""
  | PyVal.vnat n => n != 0
  | PyVal.vdict _ => true
  | PyVal.vlist xs => !xs.isEmpty

/-- The `type_value` extraction of `update_person_contact_type`: a dict
yields its `value`, a non-empty list yields its head (unwrapped once when the
head is a dict), anything else is taken as is. -/
def extract_type_value : PyVal → PyVal
  | PyVal.vdict v => v
  | PyVal.vlist (x :: _) =>
      match x with
      | PyVal.vdict v => v
      | x1 => x1
  | v => v

/-- Python `str(...)` for the comparison against the Business option id.
Option ids are scalars (numbers or digit strings), so the renderings of
nested values are schematic placeholders that never equal a scalar id. -/
def pyStr : PyVal → String
  | PyVal.vnone => "None"
  | PyVal.vstr s => s
  | PyVal.vnat n => toString n
  | PyVal.vdict v => "dict:" ++ pyStr v
  | PyVal.vlist _ => "list"

/-- `update_person_contact_type`: given the fetched current contact-type
field value (`none` when the GET failed or reported `success: false`),
return the write it issues — `none` for no write, `some id` for a PUT setting
the field to that option id. -/
def update_person_contact_type (cfg : Config) (fetched : Option PyVal) : Option Nat :=
  if ¬cfg.CONTACT_TYPE_KEY ∨ cfg.CONTACT_TYPE_CLIENT_ID = 0 then none
  else
    match fetched with
    | none => none
    | some current =>
        let has_business :=
          current.truthy
            && (pyStr (extract_type_value current) == toString cfg.CONTACT_TYPE_BUSINESS_ID)
        if has_business then none else some cfg.CONTACT_TYPE_CLIENT_ID

/-! ## Batch loops (`polling_sync.py`)

`PollingSync.run_sync` and `run_initial_sync` iterate the fetched loans with
the same per-record guard; the batches are modelled from the point where the
Salesforce query has returned the loan list. -/

/-- What one `sync_deal_from_loan` call did for a record of the batch. -/
inductive LoanOutcome
  /-- Returned normally with this value. -/
  | res (r : Option Nat)
  /-- Raised an exception with this message text. -/
  | exn (msg : String)
deriving DecidableEq, Repr

structure BatchRecord where
  /-- `loan.get("Id")` as rendered into the error messages. -/
  loanId : String
  outcome : LoanOutcome
deriving DecidableEq, Repr

/-- The result dict of a batch run (`errors := []` models the absent key). -/
structure BatchResult where
  success : Bool
  synced : Nat
  failed : Nat
  total : Nat
  errors : List String
deriving DecidableEq, Repr

/-- One iteration of the per-loan loop: a truthy deal id counts as synced;
`None` counts as failed with a "Sync returned None" error; an exception
counts as failed with its message.  The accumulator is
(synced, failed, errors). -/
def sync_step (acc : Nat × Nat × List String) (b : BatchRecord) : Nat × Nat × List String :=
  match b.outcome with
  | LoanOutcome.res r =>
      match optTruthy r with
      | some _ => (acc.1 + 1, acc.2.1, acc.2.2)
      | none => (acc.1, acc.2.1 + 1, acc.2.2 ++ ["Loan " ++ b.loanId ++ ": Sync returned None"])
  | LoanOutcome.exn m => (acc.1, acc.2.1 + 1, acc.2.2 ++ ["Loan " ++ b.loanId ++ ": " ++ m])

/-- The whole per-loan loop. -/
def sync_loop (loans : List BatchRecord) : Nat × Nat × List String :=
  loans.foldl sync_step (0, 0, [])

/-- Every error message of the batch, in encounter order. -/
def all_errors (loans : List BatchRecord) : List String :=
  (sync_loop loans).2.2

/-- `PollingSync.run_sync` after the Salesforce query returned `loans`:
always `success: True`, separate synced/failed counts, errors capped to the
first 10. -/
def PollingSync_run_sync (loans : List BatchRecord) : BatchResult :=
  let r := sync_loop loans
  { success := true, synced := r.1, failed := r.2.1, total := loans.length
    errors := r.2.2.take 10 }

/-- `run_initial_sync` after the query returned `loans` (the source
duplicates the same loop verbatim, without the `last_sync` bookkeeping). -/
def run_initial_sync (loans : List BatchRecord) : BatchResult :=
  let r := sync_loop loans
  { success := true, synced := r.1, failed := r.2.1, total := loans.length
    errors := r.2.2.take 10 }

/-- A concrete loan record carrying a total amount, used to exhibit the
create-path value/loan-amount divergence. -/
def loanWithAmount : Loan :=
  { id := some "L1", status := "Application", totalAmount := some 250000 }

/-- A concrete open loan with no loan number. -/
def loanPlain : Loan := { id := some "L1", status := "Application" }

/-- A concrete Cancelled loan. -/
def loanCancelled : Loan :=
  { id := some "L1", status := "Cancelled", totalAmount := some 100 }

/-- A concrete loan carrying loan number 555. -/
def loanWithNumber : Loan :=
  { id := some "L1", status := "Application", loanNumber := some "555" }

/-- A world whose mapped-deal fetch always answers 404. -/
def wNotFound : World :=
  { personSync := some 3, fetchDeal := fun _ => FetchResult.notFound }

/-- A world whose mapped-deal fetch returns an active open deal. -/
def wActive : World :=
  { personSync := some 3, fetchDeal := fun _ => FetchResult.ok true "open" }

/-- A world where the mapped-deal fetch fails indeterminately and the Step 2
inline search holds a deal of person 7 with loan number 555. -/
def wFallthrough : World :=
  { personSync := some 7
    fetchDeal := fun _ => FetchResult.httpErr
    loanSearchItems := [{ id := 2, personId := some 7, loanNumberField := some "555" }] }

/-- A concrete contact with name, email and phone on the source side. -/
def contactJane : Contact :=
  { sfId := "C1", name := some "Jane Roe", email := some "jane@x.com", phone := some "555-1234" }

/-- A person world where the email matches person 5 but no person carries
the Salesforce Contact ID yet. -/
def pwFoundByEmail : PersonWorld := { findByEmail := some 5 }

/-- A person world where the email matches person 5 and person 5 already
carries the Salesforce Contact ID. -/
def pwFoundBoth : PersonWorld := { findByEmail := some 5, findBySfId := some 5 }

/-- The update body the resolver sends for `contactJane` when the linkage is
not yet established: name, email and phone are all (re)written. -/
def janeInitialPayload : PersonPayload :=
  { name := some "Jane Roe", email := some "jane@x.com", phone := some "555-1234"
    sfContactId := some "C1" }

/-! ## Theorems -/

theorem dictGet_dictSet_self (ms : Mappings) (k : String) (v : Nat) :
    dictGet (dictSet ms k v) k = some v := by
  induction ms with
  | nil => simp [dictSet, dictGet]
  | cons hd tl ih =>
      obtain ⟨k1, v1⟩ := hd
      by_cases h : k1 = k
      · simp [dictSet, dictGet, h]
      · simp [dictSet, dictGet, h, ih]

theorem dictGet_dictSet_ne (ms : Mappings) (k j : String) (v : Nat) (h : j ≠ k) :
    dictGet (dictSet ms k v) j = dictGet ms j := by
  have hk : k ≠ j := Ne.symm h
  induction ms with
  | nil => simp [dictSet, dictGet, hk]
  | cons hd tl ih =>
      obtain ⟨k1, v1⟩ := hd
      by_cases hkk : k1 = k
      · subst hkk
        simp [dictSet, dictGet, hk]
      · simp only [dictSet, if_neg hkk, dictGet]
        by_cases hj : k1 = j
        · simp [hj]
        · simp [hj, ih]

theorem dictGet_store_all_of_not_mem (entries : List (MapKey × Nat)) (s : String)
    (h : ∀ e ∈ entries, MapKey.toStr e.1 ≠ s) :
    dictGet (store_all entries) s = none := by
  suffices hgen : ∀ (l : List (MapKey × Nat)) (m : Mappings),
      (∀ e ∈ l, MapKey.toStr e.1 ≠ s) →
      dictGet (l.foldl (fun m e => store_deal_mapping m e.1 e.2) m) s = dictGet m s by
    have := hgen entries [] h
    simpa [store_all, dictGet] using this
  intro l
  induction l with
  | nil => intro m _; rfl
  | cons hd tl ih =>
      intro m hm
      have hhd : MapKey.toStr hd.1 ≠ s := hm hd (List.mem_cons_self hd tl)
      have htl : ∀ e ∈ tl, MapKey.toStr e.1 ≠ s := fun e he => hm e (List.mem_cons_of_mem hd he)
      simp only [List.foldl_cons]
      rw [ih _ htl, store_deal_mapping, dictGet_dictSet_ne _ _ _ _ (Ne.symm hhd)]

/-- Claim C10: the Identity Store round-trips.  After
`store_deal_mapping x d`, `get_deal_id_for_loan` on any key with the same
string coercion as `x` (so integer and string forms of the same id agree)
returns `d`; keys with a different string coercion are unchanged; and a key
never stored by any of a sequence of stores reads back as `None`. -/
theorem identity_store_roundtrip (ms : Mappings) (x y : MapKey) (d : Nat) :
    get_deal_id_for_loan (store_deal_mapping ms x d) x = some d
    ∧ (y.toStr = x.toStr →
        get_deal_id_for_loan (store_deal_mapping ms x d) y = some d)
    ∧ (y.toStr ≠ x.toStr →
        get_deal_id_for_loan (store_deal_mapping ms x d) y = get_deal_id_for_loan ms y)
    ∧ (∀ entries : List (MapKey × Nat), (∀ e ∈ entries, MapKey.toStr e.1 ≠ y.toStr) →
        get_deal_id_for_loan (store_all entries) y = none) := by
  refine ⟨dictGet_dictSet_self ms x.toStr d, ?_, ?_, ?_⟩
  · intro hxy
    unfold get_deal_id_for_loan store_deal_mapping
    rw [hxy]
    exact dictGet_dictSet_self ms x.toStr d
  · intro hxy
    exact dictGet_dictSet_ne ms x.toStr y.toStr d hxy
  · intro entries hent
    exact dictGet_store_all_of_not_mem entries y.toStr hent

/-- Closed witness for the round-trip theorem: storing under the string key
"123" is visible under the integer key 123, an unrelated key keeps its value,
and an id never stored reads back as `None`. -/
theorem identity_store_roundtrip_witness :
    get_deal_id_for_loan (store_deal_mapping [] (MapKey.str "123") 7) (MapKey.num 123) = some 7
    ∧ get_deal_id_for_loan (store_deal_mapping [("42", 9)] (MapKey.str "123") 7)
        (MapKey.str "42") = some 9
    ∧ get_deal_id_for_loan (store_all [(MapKey.str "a", 1)]) (MapKey.str "b") = none := by
  refine ⟨(identity_store_roundtrip [] (MapKey.str "123") (MapKey.num 123) 7).2.1 (by decide),
    ?_, ?_⟩
  · have h := (identity_store_roundtrip [("42", 9)] (MapKey.str "123") (MapKey.str "42") 7).2.2.1
    exact (h (by decide)).trans (by decide)
  · exact (identity_store_roundtrip [] (MapKey.str "x") (MapKey.str "b") 0).2.2.2
      [(MapKey.str "a", 1)] (by decide)

/-- Claim C6: `update_deal` with a Cancelled source status returns success
while issuing no PUT at all, whatever the deal, world or configuration: the
Cancelled check precedes the generic update path, so every field update (not
just the status field) is suppressed. -/
theorem update_deal_cancelled_true_noop (w : World) (cfg : Config) (deal_id : Nat)
    (loan : Loan) (person_id : Option Nat) (sfId : String)
    (h : loan.status = "Cancelled") :
    update_deal w cfg deal_id loan person_id sfId = (true, none) := by
  simp [update_deal, h]

/-- Closed witness for the Cancelled no-op: a concrete Cancelled loan against
a world whose PUT endpoint would report failure still yields success with no
write. -/
theorem update_deal_cancelled_true_noop_witness :
    update_deal { updateOk := fun _ => false } {} 5
      { id := some "L1", status := "Cancelled", totalAmount := some 100 } (some 3) "L1"
      = (true, none) := by
  exact update_deal_cancelled_true_noop { updateOk := fun _ => false } {} 5
    { id := some "L1", status := "Cancelled", totalAmount := some 100 } (some 3) "L1" rfl

/-- Claim C7: a source status of `"Closed"` makes both `create_deal` and
`update_deal` set the destination status to `"won"`, in addition to mapping
the stage through the fixed enumeration mapping (Closed maps to the
Clear-To-Close stage); the update payload with that status really is sent. -/
theorem closed_status_forces_won (w : World) (cfg : Config) (loan : Loan)
    (person_id deal_id : Nat) (sfId : String)
    (hst : loan.status = "Closed") (hcfg : cfg.CLEAR_TO_CLOSE_STAGE_ID ≠ 0) :
    map_salesforce_stage_to_pipedrive cfg "Closed" = some cfg.CLEAR_TO_CLOSE_STAGE_ID
    ∧ (create_deal_payload cfg loan person_id sfId).statusField = some "won"
    ∧ (create_deal_payload cfg loan person_id sfId).stageId = some cfg.CLEAR_TO_CLOSE_STAGE_ID
    ∧ (update_deal_payload cfg loan (some person_id) sfId).statusField = some "won"
    ∧ (update_deal_payload cfg loan (some person_id) sfId).stageId
        = some cfg.CLEAR_TO_CLOSE_STAGE_ID
    ∧ (update_deal w cfg deal_id loan (some person_id) sfId).2
        = some (deal_id, update_deal_payload cfg loan (some person_id) sfId) := by
  have hmap : map_salesforce_stage_to_pipedrive cfg "Closed" = some cfg.CLEAR_TO_CLOSE_STAGE_ID := rfl
  refine ⟨hmap, ?_, ?_, ?_, ?_, ?_⟩
  · simp [create_deal_payload, hst]
  · simp [create_deal_payload, hst, hmap, hcfg]
  · simp [update_deal_payload, hst]
  · simp [update_deal_payload, hst, hmap, hcfg]
  · simp [update_deal, hst]

/-- Closed witness: a concrete Closed loan with a configured Clear-To-Close
stage id 42 gets status "won" and stage 42 in both payloads. -/
theorem closed_status_forces_won_witness :
    (create_deal_payload { CLEAR_TO_CLOSE_STAGE_ID := 42 }
        { id := some "L1", status := "Closed", totalAmount := some 100 } 5 "L1").statusField
      = some "won"
    ∧ (update_deal_payload { CLEAR_TO_CLOSE_STAGE_ID := 42 }
        { id := some "L1", status := "Closed", totalAmount := some 100 } (some 5) "L1").stageId
      = some 42 := by
  have h := closed_status_forces_won {} { CLEAR_TO_CLOSE_STAGE_ID := 42 }
    { id := some "L1", status := "Closed", totalAmount := some 100 } 5 7 "L1" rfl (by decide)
  exact ⟨h.2.1, h.2.2.2.2.1⟩

/-- Claim C4 (code bug): after `update_deal` the deal value and the
loan-amount custom field are set to the same number, but `create_deal` sends
the value while never setting the loan-amount custom field, so a freshly
created deal from a record with amount 250000 has value 250000 and no loan
amount; the two are not numerically equal after a successful create. -/
theorem create_deal_value_without_loan_amount :
    (create_deal_payload {} loanWithAmount 5 "L1").value = some 250000
    ∧ (create_deal_payload {} loanWithAmount 5 "L1").loanAmount = none
    ∧ (update_deal_payload {} loanWithAmount (some 5) "L1").value
      = (update_deal_payload {} loanWithAmount (some 5) "L1").loanAmount := by
  refine ⟨rfl, rfl, rfl⟩

/-- Helper: one `sync_deal_from_loan` call on a loan whose stored mapping
points at an archived, lost, or unretrievable (404) deal returns `None`,
attempts no create, and leaves the mapping file unchanged. -/
theorem sync_mapped_blocked_aux (w : World) (cfg : Config) (loan : Loan) (ms : Mappings)
    (x : String) (d : Nat)
    (hid : loan.id = some x) (hx : x ≠ "")
    (hmap : get_deal_id_for_loan ms (MapKey.str x) = some d) (hd : d ≠ 0)
    (hblocked : w.fetchDeal d = FetchResult.notFound
      ∨ (∃ st, w.fetchDeal d = FetchResult.ok false st)
      ∨ (∃ a, w.fetchDeal d = FetchResult.ok a "lost")) :
    (sync_deal_from_loan w cfg loan ms).ret = none
    ∧ (sync_deal_from_loan w cfg loan ms).eff.created = []
    ∧ (sync_deal_from_loan w cfg loan ms).eff.createPosts = 0
    ∧ (sync_deal_from_loan w cfg loan ms).ms = ms := by
  unfold sync_deal_from_loan
  rw [hid]
  by_cases hc : loan.status = "Cancelled"
  · simp [hx, hc]
  · simp only [if_neg hx, if_neg hc]
    cases hp : w.personSync with
    | none => simp
    | some pid =>
        by_cases hp0 : pid = 0
        · simp [hp0]
        · simp only [if_neg hp0]
          unfold step0_mapping
          rw [hmap]
          simp only [if_neg hd]
          rcases hblocked with hb | ⟨st, hb⟩ | ⟨a, hb⟩
          · rw [hb]; simp
          · rw [hb]; simp
          · rw [hb]; simp

/-- Claim C1: when the stored Identity-Store mapping of the external loan id
points at a deal that is archived (`active == False`), lost, or
unretrievable (404), every `sync_deal_from_loan` call returns `None` without
creating a deal, and repeated calls create no deal either (the mapping file
is left unchanged, so every subsequent call takes the same skip path). -/
theorem no_duplicate_creation_under_archival (w : World) (cfg : Config) (loan : Loan)
    (ms : Mappings) (x : String) (d : Nat)
    (hid : loan.id = some x) (hx : x ≠ "")
    (hmap : get_deal_id_for_loan ms (MapKey.str x) = some d) (hd : d ≠ 0)
    (hblocked : w.fetchDeal d = FetchResult.notFound
      ∨ (∃ st, w.fetchDeal d = FetchResult.ok false st)
      ∨ (∃ a, w.fetchDeal d = FetchResult.ok a "lost")) :
    ((sync_deal_from_loan w cfg loan ms).ret = none
      ∧ (sync_deal_from_loan w cfg loan ms).eff.created = []
      ∧ (sync_deal_from_loan w cfg loan ms).eff.createPosts = 0)
    ∧ ∀ k, (sync_iter w cfg loan k ms).2 = [] := by
  have h := sync_mapped_blocked_aux w cfg loan ms x d hid hx hmap hd hblocked
  refine ⟨⟨h.1, h.2.1, h.2.2.1⟩, ?_⟩
  intro k
  induction k with
  | zero => rfl
  | succ k ih =>
      show (sync_deal_from_loan w cfg loan ms).eff.created
        ++ (sync_iter w cfg loan k (sync_deal_from_loan w cfg loan ms).ms).2 = []
      rw [h.2.1, h.2.2.2, ih]
      rfl

/-- Closed witness for C1: a mapping to deal 9 that the API can no longer
retrieve (404) makes two consecutive syncs return `None` and create
nothing. -/
theorem no_duplicate_creation_under_archival_witness :
    (sync_deal_from_loan wNotFound {} loanPlain [("L1", 9)]).ret = none
    ∧ (sync_deal_from_loan wNotFound {} loanPlain [("L1", 9)]).eff.created = []
    ∧ (sync_iter wNotFound {} loanPlain 2 [("L1", 9)]).2 = [] := by
  have h := no_duplicate_creation_under_archival wNotFound {} loanPlain [("L1", 9)] "L1" 9
    rfl (by decide) rfl (by decide) (Or.inl rfl)
  exact ⟨h.1.1, h.1.2.1, h.2 2⟩

/-- Claim C2 as amended: `sync_deal_from_loan` on a Cancelled source record
returns `None` and performs no person or deal write whatsoever — with or
without a prior Identity-Store mapping, because the Cancelled guard precedes
the person sync and the mapping lookup.  (The original claim expected the
mapped deal id back; the counterexample shows the call returns `None`
instead.) -/
theorem cancelled_record_no_writes (w : World) (cfg : Config) (loan : Loan) (ms : Mappings)
    (h : loan.status = "Cancelled") :
    sync_deal_from_loan w cfg loan ms = { ret := none, ms := ms, eff := {} } := by
  unfold sync_deal_from_loan
  cases hid : loan.id with
  | none => rfl
  | some s =>
      by_cases hs : s = ""
      · simp [hs]
      · simp [hs, h]

/-- Counterexample for C2 as stated: a Cancelled record whose external id is
mapped to the existing active deal 5 resolves to `None`, not to the mapped
deal id 5. -/
theorem cancelled_mapped_returns_none :
    get_deal_id_for_loan [("L1", 5)] (MapKey.str "L1") = some 5
    ∧ wActive.fetchDeal 5 = FetchResult.ok true "open"
    ∧ (sync_deal_from_loan wActive {} loanCancelled [("L1", 5)]).ret = none
    ∧ (sync_deal_from_loan wActive {} loanCancelled [("L1", 5)]).ret ≠ some 5 := by
  refine ⟨rfl, rfl, rfl, by decide⟩

/-- Closed witness for the amended C2: the Cancelled sync above also issues
no write at all and leaves the mapping file unchanged. -/
theorem cancelled_record_no_writes_witness :
    sync_deal_from_loan wActive {} loanCancelled [("L1", 5)]
      = { ret := none, ms := [("L1", 5)], eff := {} } :=
  cancelled_record_no_writes wActive {} loanCancelled [("L1", 5)] rfl

/-- Claim C3 as amended: when the Identity-Store mapping exists and the
Step 0 fetch of the mapped deal yields a definitive outcome (success or
404), the result of `sync_deal_from_loan` is determined by the mapped deal —
the call returns either `None` or the mapped id, stores no new mapping,
creates nothing, and every deal PUT targets the mapped deal, so a loan-number
match pointing at a different deal is never acted on.  (The original
unconditional claim fails when the Step 0 fetch errors indeterminately: the
source then falls through to the search steps, see the counterexample.) -/
theorem mapping_takes_precedence (w : World) (cfg : Config) (loan : Loan) (ms : Mappings)
    (x : String) (d : Nat)
    (hid : loan.id = some x) (hx : x ≠ "")
    (hmap : get_deal_id_for_loan ms (MapKey.str x) = some d) (hd : d ≠ 0)
    (hdef : w.fetchDeal d ≠ FetchResult.apiFail ∧ w.fetchDeal d ≠ FetchResult.httpErr) :
    ((sync_deal_from_loan w cfg loan ms).ret = none
      ∨ (sync_deal_from_loan w cfg loan ms).ret = some d)
    ∧ (sync_deal_from_loan w cfg loan ms).ms = ms
    ∧ (sync_deal_from_loan w cfg loan ms).eff.created = []
    ∧ (sync_deal_from_loan w cfg loan ms).eff.createPosts = 0
    ∧ ∀ p ∈ (sync_deal_from_loan w cfg loan ms).eff.dealPuts, p.1 = d := by
  unfold sync_deal_from_loan
  rw [hid]
  by_cases hc : loan.status = "Cancelled"
  · simp [hx, hc]
  · simp only [if_neg hx, if_neg hc]
    cases hp : w.personSync with
    | none => simp
    | some pid =>
        by_cases hp0 : pid = 0
        · simp [hp0]
        · simp only [if_neg hp0]
          unfold step0_mapping
          rw [hmap]
          simp only [if_neg hd]
          cases hf : w.fetchDeal d with
          | ok active st =>
              by_cases hskip : active = false ∨ st = "lost"
              · simp [hskip]
              · simp [hskip, Effects.merge, putOf, update_deal, hc]
          | apiFail => exact absurd hf hdef.1
          | notFound => simp
          | httpErr => exact absurd hf hdef.2

/-- Counterexample for C3 as stated: with a mapping to deal 1 whose fetch
fails indeterminately, and a loan-number match pointing at the different
deal 2, the resolver acts on the loan-number match: it returns deal 2 and
overwrites the stored mapping with 2. -/
theorem mapping_precedence_counterexample :
    get_deal_id_for_loan [("L1", 1)] (MapKey.str "L1") = some 1
    ∧ (sync_deal_from_loan wFallthrough {} loanWithNumber [("L1", 1)]).ret = some 2
    ∧ (sync_deal_from_loan wFallthrough {} loanWithNumber [("L1", 1)]).ret ≠ some 1
    ∧ (sync_deal_from_loan wFallthrough {} loanWithNumber [("L1", 1)]).ms = [("L1", 2)] := by
  refine ⟨rfl, rfl, by decide, rfl⟩

/-- Closed witness for the amended C3: with a definitive Step 0 outcome
(an active mapped deal 4) the call resolves to the mapped deal. -/
theorem mapping_takes_precedence_witness :
    ((sync_deal_from_loan wActive {} loanPlain [("L1", 4)]).ret = none
      ∨ (sync_deal_from_loan wActive {} loanPlain [("L1", 4)]).ret = some 4)
    ∧ (sync_deal_from_loan wActive {} loanPlain [("L1", 4)]).ms = [("L1", 4)] := by
  have h := mapping_takes_precedence wActive {} loanPlain [("L1", 4)] "L1" 4
    rfl (by decide) rfl (by decide) ⟨by decide, by decide⟩
  exact ⟨h.1, h.2.1⟩

/-- Claim C5 as amended: when the email matches an existing person, the
resolver returns that person and creates nobody; it issues exactly one
person PUT, whose linkage field carries the Salesforce Contact ID
(unconditionally, when configured), and whose name/email/phone slots are
written precisely on the initial linkage — when some person already carries
the Salesforce Contact ID (`is_initial = False`) the name, email and phone
are all untouched.  (The original claim said name/email/phone are never
written in this branch; the counterexample shows the very first linkage
rewrites them.) -/
theorem person_found_by_email_frame (w : PersonWorld) (cfg : Config) (contact : Contact)
    (p : Nat) (hfound : optTruthy w.findByEmail = some p) (hsf : contact.sfId ≠ "") :
    (sync_person_from_contact w cfg contact).ret = some p
    ∧ (sync_person_from_contact w cfg contact).eff.personCreates = []
    ∧ (sync_person_from_contact w cfg contact).eff.createPosts = 0
    ∧ (sync_person_from_contact w cfg contact).eff.personPuts
        = [(p, update_person_payload cfg contact (derived_email contact)
              (optTruthy w.findBySfId).isNone)]
    ∧ (update_person_payload cfg contact (derived_email contact) false).name = none
    ∧ (update_person_payload cfg contact (derived_email contact) false).email = none
    ∧ (update_person_payload cfg contact (derived_email contact) false).phone = none
    ∧ (update_person_payload cfg contact (derived_email contact) false).sfContactId
        = (if cfg.PIPEDRIVE_SALESFORCE_CONTACT_ID_KEY then some contact.sfId else none) := by
  unfold sync_person_from_contact
  rw [hfound]
  simp [hsf, update_person_payload]

/-- Counterexample for C5 as stated: the email of `contactJane` matches
person 5 and no person carries her Salesforce Contact ID yet; the single
PUT rewrites name, email and phone, not only the linkage field. -/
theorem person_found_by_email_rewrites_on_first_linkage :
    (sync_person_from_contact pwFoundByEmail {} contactJane).eff.personPuts
      = [(5, janeInitialPayload)]
    ∧ janeInitialPayload.name = some "Jane Roe"
    ∧ janeInitialPayload.email = some "jane@x.com"
    ∧ janeInitialPayload.phone = some "555-1234" := by
  refine ⟨rfl, rfl, rfl, rfl⟩

/-- Closed witness for the amended C5: once person 5 already carries the
Salesforce Contact ID, the PUT touches only the linkage field. -/
theorem person_found_by_email_frame_witness :
    (sync_person_from_contact pwFoundBoth {} contactJane).ret = some 5
    ∧ (sync_person_from_contact pwFoundBoth {} contactJane).eff.personPuts
        = [(5, { sfContactId := some "C1" })] := by
  have h := person_found_by_email_frame pwFoundBoth {} contactJane 5 rfl (by decide)
  refine ⟨h.1, ?_⟩
  rw [h.2.2.2.1]
  rfl

/-- Claim C8: `update_person_contact_type` (with the contact-type field and
Client option id configured, and a successful fetch of the current value)
writes the default Client id unless the current field value is the protected
Business id (compared after string coercion, so numeric and string forms
agree) — a field holding Business is never overwritten. -/
theorem contact_type_business_protected (cfg : Config) (v : PyVal)
    (hkey : cfg.CONTACT_TYPE_KEY = true) (hclient : cfg.CONTACT_TYPE_CLIENT_ID ≠ 0) :
    (v.truthy = true →
      pyStr (extract_type_value v) = toString cfg.CONTACT_TYPE_BUSINESS_ID →
      update_person_contact_type cfg (some v) = none)
    ∧ (v.truthy = false →
      update_person_contact_type cfg (some v) = some cfg.CONTACT_TYPE_CLIENT_ID)
    ∧ (pyStr (extract_type_value v) ≠ toString cfg.CONTACT_TYPE_BUSINESS_ID →
      update_person_contact_type cfg (some v) = some cfg.CONTACT_TYPE_CLIENT_ID) := by
  refine ⟨?_, ?_, ?_⟩
  · intro ht hb
    simp [update_person_contact_type, hkey, hclient, ht, hb]
  · intro ht
    simp [update_person_contact_type, hkey, hclient, ht]
  · intro hb
    simp [update_person_contact_type, hkey, hclient, hb]

/-- Closed witness for C8: with Client id 88 and Business id 89, a field
holding 89 (numeric or string form) is left alone, while an unset field is
written to Client. -/
theorem contact_type_business_protected_witness :
    update_person_contact_type
      { CONTACT_TYPE_CLIENT_ID := 88, CONTACT_TYPE_BUSINESS_ID := 89 }
      (some (PyVal.vnat 89)) = none
    ∧ update_person_contact_type
      { CONTACT_TYPE_CLIENT_ID := 88, CONTACT_TYPE_BUSINESS_ID := 89 }
      (some (PyVal.vstr "89")) = none
    ∧ update_person_contact_type
      { CONTACT_TYPE_CLIENT_ID := 88, CONTACT_TYPE_BUSINESS_ID := 89 }
      (some PyVal.vnone) = some 88 := by
  refine ⟨?_, ?_, ?_⟩
  · exact (contact_type_business_protected
      { CONTACT_TYPE_CLIENT_ID := 88, CONTACT_TYPE_BUSINESS_ID := 89 }
      (PyVal.vnat 89) rfl (by decide)).1 rfl (by decide)
  · exact (contact_type_business_protected
      { CONTACT_TYPE_CLIENT_ID := 88, CONTACT_TYPE_BUSINESS_ID := 89 }
      (PyVal.vstr "89") rfl (by decide)).1 rfl (by decide)
  · exact (contact_type_business_protected
      { CONTACT_TYPE_CLIENT_ID := 88, CONTACT_TYPE_BUSINESS_ID := 89 }
      PyVal.vnone rfl (by decide)).2.1 rfl

/-- Helper: the per-loan loop adds exactly one to `synced` or to `failed`
for every record. -/
theorem sync_loop_counts (loans : List BatchRecord) :
    ∀ acc : Nat × Nat × List String,
      (loans.foldl sync_step acc).1 + (loans.foldl sync_step acc).2.1
        = acc.1 + acc.2.1 + loans.length := by
  induction loans with
  | nil => intro acc; simp
  | cons b tl ih =>
      intro acc
      rw [List.foldl_cons, ih (sync_step acc b)]
      have hstep : (sync_step acc b).1 + (sync_step acc b).2.1 = acc.1 + acc.2.1 + 1 := by
        unfold sync_step
        cases hb : b.outcome with
        | res r =>
            cases hr : optTruthy r with
            | some n => simp [hr]; omega
            | none => simp [hr]; omega
        | exn m => simp; omega
      rw [hstep]
      simp [List.length_cons]
      omega

/-- Claim C9: for every batch (polling or initial sync), per-record failures
never abort the loop — the result always reports `success: True`, the synced
and failed counts partition the batch, and the error list is exactly the
first 10 of the per-record error messages; the initial sync behaves
identically. -/
theorem batch_partial_failure_isolated (loans : List BatchRecord) :
    (PollingSync_run_sync loans).success = true
    ∧ (PollingSync_run_sync loans).synced + (PollingSync_run_sync loans).failed
        = loans.length
    ∧ (PollingSync_run_sync loans).total = loans.length
    ∧ (PollingSync_run_sync loans).errors = (all_errors loans).take 10
    ∧ (PollingSync_run_sync loans).errors.length ≤ 10
    ∧ run_initial_sync loans = PollingSync_run_sync loans := by
  refine ⟨rfl, ?_, rfl, rfl, ?_, rfl⟩
  · have h := sync_loop_counts loans (0, 0, [])
    simpa [PollingSync_run_sync, sync_loop] using h
  · calc ((all_errors loans).take 10).length ≤ 10 := List.length_take_le 10 _

end PipedriveSync
